import Mathlib

/-!
Shallow embedding of the e-invoice transmission queue and delivery provider
abstraction (crates/queue/src/lib.rs, crates/access_point/src).  Machine
integers are modelled as Nat with explicit reduction modulo 2^32 where the
source wraps; timestamps are modelled as Nat values supplied by the caller
(the source reads a monotone wall clock); fallible store operations return
Except or carry the resulting store explicitly.
-/

namespace EInv

/-- Delivery state vocabulary shared by all backends (crates/access_point/src/lib.rs). -/
inductive DeliveryState where
  | Pending
  | InFlight
  | Delivered
  | Failed
deriving DecidableEq, Repr

/-- Provider-returned status record (crates/access_point/src/lib.rs). -/
structure DeliveryStatus where
  transmission_id : String
  state : DeliveryState
  message : Option String
deriving DecidableEq, Repr

/-! SHA-256 (FIPS 180-4), embedding the sha2 crate used by
crates/core/src/parsing.rs compute_sha256_hex.  Words are Nat reduced
modulo 2^32. -/

/-- Modulus for 32 bit words. -/
def w32 : Nat := 4294967296

/-- Right rotation of a 32 bit word. -/
def rotr32 (n x : Nat) : Nat := ((x >>> n) ||| (x <<< (32 - n))) % w32

/-- Bitwise complement within 32 bits. -/
def not32 (x : Nat) : Nat := x ^^^ (w32 - 1)

/-- Choice function of the SHA-256 round. -/
def ch32 (x y z : Nat) : Nat := (x &&& y) ^^^ ((not32 x) &&& z)

/-- Majority function of the SHA-256 round. -/
def maj32 (x y z : Nat) : Nat := (x &&& y) ^^^ (x &&& z) ^^^ (y &&& z)

/-- Big sigma 0. -/
def bsig0 (x : Nat) : Nat := (rotr32 2 x) ^^^ (rotr32 13 x) ^^^ (rotr32 22 x)

/-- Big sigma 1. -/
def bsig1 (x : Nat) : Nat := (rotr32 6 x) ^^^ (rotr32 11 x) ^^^ (rotr32 25 x)

/-- Small sigma 0. -/
def ssig0 (x : Nat) : Nat := (rotr32 7 x) ^^^ (rotr32 18 x) ^^^ (x >>> 3)

/-- Small sigma 1. -/
def ssig1 (x : Nat) : Nat := (rotr32 17 x) ^^^ (rotr32 19 x) ^^^ (x >>> 10)

/-- Round constants of FIPS 180-4, in decimal. -/
def sha256K : List Nat :=
  [1116352408, 1899447441, 3049323471, 3921009573, 961987163,
   1508970993, 2453635748, 2870763221, 3624381080, 310598401,
   607225278, 1426881987, 1925078388, 2162078206, 2614888103,
   3248222580, 3835390401, 4022224774, 264347078, 604807628,
   770255983, 1249150122, 1555081692, 1996064986, 2554220882,
   2821834349, 2952996808, 3210313671, 3336571891, 3584528711,
   113926993, 338241895, 666307205, 773529912, 1294757372,
   1396182291, 1695183700, 1986661051, 2177026350, 2456956037,
   2730485921, 2820302411, 3259730800, 3345764771, 3516065817,
   3600352804, 4094571909, 275423344, 430227734, 506948616,
   659060556, 883997877, 958139571, 1322822218, 1537002063,
   1747873779, 1955562222, 2024104815, 2227730452, 2361852424,
   2428436474, 2756734187, 3204031479, 3329325298]

/-- Working state: eight 32 bit words. -/
structure Sha8 where
  h0 : Nat
  h1 : Nat
  h2 : Nat
  h3 : Nat
  h4 : Nat
  h5 : Nat
  h6 : Nat
  h7 : Nat
deriving DecidableEq, Repr

/-- Initial hash value of FIPS 180-4, in decimal. -/
def sha256Init : Sha8 :=
  ⟨1779033703, 3144134277, 1013904242, 2773480762,
   1359893119, 2600822924, 528734635, 1541459225⟩

/-- Big-endian decoding of groups of four bytes into 32 bit words. -/
def bytesToWords : List Nat → List Nat
  | b0 :: b1 :: b2 :: b3 :: rest => ((((b0 * 256 + b1) * 256 + b2) * 256) + b3) :: bytesToWords rest
  | _ => []

/-- Message schedule extension: push `fuel` further words onto the 16 decoded ones. -/
def sha256Extend : Nat → Array Nat → Array Nat
  | 0, w => w
  | fuel + 1, w =>
    let i := w.size
    let v := (w.getD (i - 16) 0 + ssig0 (w.getD (i - 15) 0) + w.getD (i - 7) 0
              + ssig1 (w.getD (i - 2) 0)) % w32
    sha256Extend fuel (w.push v)

/-- One SHA-256 round, consuming a pair of schedule word and round constant. -/
def sha256Round (st : Sha8) (kw : Nat × Nat) : Sha8 :=
  let t1 := (st.h7 + bsig1 st.h4 + ch32 st.h4 st.h5 st.h6 + kw.2 + kw.1) % w32
  let t2 := (bsig0 st.h0 + maj32 st.h0 st.h1 st.h2) % w32
  ⟨(t1 + t2) % w32, st.h0, st.h1, st.h2, (st.h3 + t1) % w32, st.h4, st.h5, st.h6⟩

/-- Compression of one 64 byte block. -/
def sha256Block (hv : Sha8) (block : List Nat) : Sha8 :=
  let w := (sha256Extend 48 (bytesToWords block).toArray).toList
  let st := (w.zip sha256K).foldl sha256Round hv
  ⟨(hv.h0 + st.h0) % w32, (hv.h1 + st.h1) % w32, (hv.h2 + st.h2) % w32, (hv.h3 + st.h3) % w32,
   (hv.h4 + st.h4) % w32, (hv.h5 + st.h5) % w32, (hv.h6 + st.h6) % w32, (hv.h7 + st.h7) % w32⟩

/-- Big-endian encoding of a 64 bit length into eight bytes. -/
def bytesBE8 (n : Nat) : List Nat :=
  [(n >>> 56) % 256, (n >>> 48) % 256, (n >>> 40) % 256, (n >>> 32) % 256,
   (n >>> 24) % 256, (n >>> 16) % 256, (n >>> 8) % 256, n % 256]

/-- Big-endian encoding of a 32 bit word into four bytes. -/
def bytesBE4 (n : Nat) : List Nat :=
  [(n >>> 24) % 256, (n >>> 16) % 256, (n >>> 8) % 256, n % 256]

/-- Merkle-Damgard padding: 0x80, zeros to 56 mod 64, then the bit length. -/
def sha256Pad (msg : List Nat) : List Nat :=
  let len := msg.length
  msg ++ (128 :: List.replicate ((119 - len % 64) % 64) 0) ++ bytesBE8 (len * 8)

/-- Split a byte list into successive 64 byte blocks. -/
def blocks64 : Nat → List Nat → List (List Nat)
  | 0, _ => []
  | _, [] => []
  | fuel + 1, l => l.take 64 :: blocks64 fuel (l.drop 64)

/-- SHA-256 digest of a byte list, as 32 bytes. -/
def sha256Bytes (msg : List Nat) : List Nat :=
  let padded := sha256Pad msg
  let hv := (blocks64 (padded.length / 64) padded).foldl sha256Block sha256Init
  bytesBE4 hv.h0 ++ bytesBE4 hv.h1 ++ bytesBE4 hv.h2 ++ bytesBE4 hv.h3 ++
  bytesBE4 hv.h4 ++ bytesBE4 hv.h5 ++ bytesBE4 hv.h6 ++ bytesBE4 hv.h7

/-- Lowercase hexadecimal digit. -/
def hexDigit (n : Nat) : Char := if n < 10 then Char.ofNat (48 + n) else Char.ofNat (87 + n)

/-- Lowercase hexadecimal encoding of a byte list (the hex crate encode). -/
def hexEncode (bs : List Nat) : String :=
  String.mk (bs.foldr (fun b acc => hexDigit (b / 16) :: hexDigit (b % 16) :: acc) [])

/-- UTF-8 encoding of one Unicode scalar value. -/
def utf8Bytes (c : Nat) : List Nat :=
  if c < 128 then [c]
  else if c < 2048 then [192 ||| (c >>> 6), 128 ||| (c &&& 63)]
  else if c < 65536 then
    [224 ||| (c >>> 12), 128 ||| ((c >>> 6) &&& 63), 128 ||| (c &&& 63)]
  else
    [240 ||| (c >>> 18), 128 ||| ((c >>> 12) &&& 63), 128 ||| ((c >>> 6) &&& 63), 128 ||| (c &&& 63)]

/-- UTF-8 bytes of a string, as Nat values below 256. -/
def strBytes (s : String) : List Nat := (s.data.map (fun c => utf8Bytes c.toNat)).flatten

/-- Embedding of compute_sha256_hex (crates/core/src/parsing.rs): hex-encoded
SHA-256 digest of the UTF-8 bytes of the argument. -/
def compute_sha256_hex (xml : String) : String := hexEncode (sha256Bytes (strBytes xml))

/-! Transmission queue data model (crates/queue/src/lib.rs). -/

/-- Persistent job record.  Timestamps are Nat clock readings. -/
structure JobRecord where
  job_id : String
  state : String
  last_error : Option String
  created_at : Nat
  updated_at : Nat
  transmission_id : Option String
  invoice_hash : String
deriving DecidableEq, Repr

/-- Raw submission inputs stored next to the record. -/
structure JobPayload where
  xml : String
  sender : String
  receiver : String
  profile : String
deriving DecidableEq, Repr

/-- Association-list model of one sled tree keyed by job id. -/
def treeGet {α : Type} (t : List (String × α)) (k : String) : Option α :=
  (t.find? (fun p => p.1 == k)).map Prod.snd

/-- Insert into a tree: replace the value under an existing key, append otherwise. -/
def treeInsert {α : Type} (t : List (String × α)) (k : String) (v : α) : List (String × α) :=
  match t with
  | [] => [(k, v)]
  | (k2, v2) :: rest => if k2 == k then (k, v) :: rest else (k2, v2) :: treeInsert rest k v

/-- Store owned by the queue: the jobs tree and the payloads tree. -/
structure Store where
  jobs : List (String × JobRecord)
  payloads : List (String × JobPayload)
deriving DecidableEq, Repr

/-- Record written by Queue.enqueue before any dispatch work. -/
def enqueueRecord (job_id : String) (xml : String) (now : Nat) : JobRecord :=
  { job_id := job_id, state := "queued", last_error := none, created_at := now,
    updated_at := now, transmission_id := none, invoice_hash := compute_sha256_hex xml }

/-- Persistence phase of Queue.enqueue: the jobs insert followed by the payloads
insert, each of which can fail (sled insert returns Result); a failed insert
leaves its tree unwritten and makes enqueue return the error to the caller. -/
def enqueue_run (jobsOk payloadsOk : Bool) (job_id : String) (p : JobPayload) (now : Nat)
    (s : Store) : Except String String × Store :=
  let r := enqueueRecord job_id p.xml now
  if jobsOk then
    let s1 : Store := { s with jobs := treeInsert s.jobs job_id r }
    if payloadsOk then
      (Except.ok job_id, { s1 with payloads := treeInsert s1.payloads job_id p })
    else
      (Except.error "store io error", s1)
  else
    (Except.error "store io error", s)

/-- Read-modify-write helper update_state: error without touching the tree when
the key is absent, otherwise write back the modified record. -/
def update_state (jobs : List (String × JobRecord)) (job_id : String)
    (f : JobRecord → JobRecord) : Except String Unit × List (String × JobRecord) :=
  match treeGet jobs job_id with
  | none => (Except.error ("job not found: " ++ job_id), jobs)
  | some r => (Except.ok (), treeInsert jobs job_id (f r))

/-- First update of process_job: mark the job in_flight. -/
def step_mark_in_flight (now : Nat) (r : JobRecord) : JobRecord :=
  { r with state := "in_flight", updated_at := now, last_error := none }

/-- Update after a successful submit: mark sent and record the transmission id. -/
def step_mark_sent (now : Nat) (tid : String) (r : JobRecord) : JobRecord :=
  { r with state := "sent", updated_at := now, transmission_id := some tid }

/-- Local state name chosen by process_job for each provider poll result. -/
def pollStateName : DeliveryState → String
  | DeliveryState.Delivered => "delivered"
  | DeliveryState.Failed => "failed"
  | DeliveryState.InFlight => "in_flight"
  | DeliveryState.Pending => "pending"

/-- Update after a successful status poll. -/
def step_poll_ok (now : Nat) (st : DeliveryStatus) (r : JobRecord) : JobRecord :=
  { r with
    state := pollStateName st.state
    updated_at := now
    last_error := match st.state with | DeliveryState.Failed => st.message | _ => none }

/-- Update after a failed status poll. -/
def step_poll_err (now : Nat) (err : String) (r : JobRecord) : JobRecord :=
  { r with state := "failed", updated_at := now, last_error := some ("status error: " ++ err) }

/-- Update after a failed submit. -/
def step_submit_err (now : Nat) (err : String) (r : JobRecord) : JobRecord :=
  { r with state := "failed", updated_at := now, last_error := some err }

/-- Sequence of records written by process_job for one job, given the outcomes
of the provider submit call and of the single status poll. -/
def processRecords (t1 t2 t3 : Nat) (submitRes : Except String String)
    (pollRes : Except String DeliveryStatus) (r0 : JobRecord) : List JobRecord :=
  let r1 := step_mark_in_flight t1 r0
  match submitRes with
  | Except.error e => [r1, step_submit_err t2 e r1]
  | Except.ok tid =>
    let r2 := step_mark_sent t2 tid r1
    match pollRes with
    | Except.ok st => [r1, r2, step_poll_ok t3 st r2]
    | Except.error e => [r1, r2, step_poll_err t3 e r2]

/-- Full stored history of one job: the enqueued record followed by every
record written by the dispatch run. -/
def jobHistory (job_id xml : String) (t0 t1 t2 t3 : Nat)
    (submitRes : Except String String) (pollRes : Except String DeliveryStatus) :
    List JobRecord :=
  let r0 := enqueueRecord job_id xml t0
  r0 :: processRecords t1 t2 t3 submitRes pollRes r0

/-- State field over the stored history. -/
def jobStates (job_id xml : String) (t0 t1 t2 t3 : Nat)
    (submitRes : Except String String) (pollRes : Except String DeliveryStatus) :
    List String :=
  (jobHistory job_id xml t0 t1 t2 t3 submitRes pollRes).map JobRecord.state

/-- Strict predecessor relation of the declared state graph
queued to in_flight to (sent to (delivered or failed), or failed). -/
def isPredecessor (a b : String) : Bool :=
  (a == "queued" && (b == "in_flight" || b == "sent" || b == "delivered" || b == "failed")) ||
  (a == "in_flight" && (b == "sent" || b == "delivered" || b == "failed")) ||
  (a == "sent" && (b == "delivered" || b == "failed"))

/-- Queue.list: decode every record of the jobs tree, sort ascending by
created_at with a stable sort, then reverse. -/
def list (jobs : List (String × JobRecord)) : List JobRecord :=
  (((jobs.map Prod.snd).mergeSort (fun a b => decide (a.created_at ≤ b.created_at)))).reverse

/-! Gateway backend status mapping (crates/access_point/src/div_service.rs). -/

/-- Native DIV message status vocabulary. -/
inductive MessageStatus where
  | New
  | Sent
  | Rejected
  | Accepted
  | DeliveryDelayed
  | RecipientAccepted
  | RecipientRejected
deriving DecidableEq, Repr

/-- DivServiceClient.map_status. -/
def map_status : MessageStatus → DeliveryState
  | MessageStatus.New | MessageStatus.Sent | MessageStatus.DeliveryDelayed =>
      DeliveryState.InFlight
  | MessageStatus.Accepted | MessageStatus.RecipientAccepted => DeliveryState.Delivered
  | MessageStatus.Rejected | MessageStatus.RecipientRejected => DeliveryState.Failed

/-! REST backend status mapping (crates/access_point/src/unifiedpost.rs). -/

/-- Model of Rust str::to_lowercase, character-wise; the vocabulary the mapping
compares against is ASCII, where per-character lowercasing is exact. -/
def rustToLowercase (s : String) : String := String.mk (s.data.map Char.toLower)

/-- State-string mapping inside UnifiedpostClient::status: the match on the
lowercased backend state with its four or-pattern arms. -/
def unifiedpost_map_state (s : String) : DeliveryState :=
  let l := rustToLowercase s
  if l = "delivered" ∨ l = "accepted" then DeliveryState.Delivered
  else if l = "failed" ∨ l = "rejected" then DeliveryState.Failed
  else if l = "in_transit" ∨ l = "sending" then DeliveryState.InFlight
  else DeliveryState.Pending

/-! DIV envelope types and serialization (crates/access_point/src/div_types.rs). -/

/-- Institution data. -/
structure InstitutionData where
  title : String
  registration_number : Option String
deriving DecidableEq, Repr

/-- Private person data. -/
structure PrivatePersonData where
  name : String
  surname : String
deriving DecidableEq, Repr

/-- Correspondent: institution or private person. -/
structure Correspondent where
  institution : Option InstitutionData
  private_person : Option PrivatePersonData
deriving DecidableEq, Repr

/-- Authors collection. -/
structure Authors where
  author_entry : List Correspondent
deriving DecidableEq, Repr

/-- Document kind. -/
structure DocumentKind where
  document_kind_code : String
  document_kind_version : String
  document_kind_name : Option String
deriving DecidableEq, Repr

/-- General metadata. -/
structure GeneralMetadata where
  authors : Authors
  date : String
  document_kind : DocumentKind
  description : Option String
  title : String
deriving DecidableEq, Repr

/-- Content reference with digest. -/
structure ContentReference where
  content_reference : String
  digest_value : String
deriving DecidableEq, Repr

/-- File entry. -/
structure FileEntry where
  mime_type : String
  size : Nat
  name : String
  content : ContentReference
  compressed : Bool
deriving DecidableEq, Repr

/-- Document payload. -/
structure DocumentPayload where
  file : List FileEntry
deriving DecidableEq, Repr

/-- Document metadata. -/
structure DocumentMetadata where
  general_metadata : GeneralMetadata
  payload_reference : Option DocumentPayload
deriving DecidableEq, Repr

/-- Individual recipient. -/
structure RecipientEntry where
  recipient_e_address : String
deriving DecidableEq, Repr

/-- Recipients collection. -/
structure Recipients where
  recipient_entry : List RecipientEntry
deriving DecidableEq, Repr

/-- Sender transport metadata. -/
structure SenderTransportMetadata where
  sender_e_address : String
  sender_ref_number : String
  recipients : Recipients
  notify_sender_on_delivery : Bool
  priority : String
deriving DecidableEq, Repr

/-- Sender document section. -/
structure SenderDocument where
  document_metadata : DocumentMetadata
  sender_transport_metadata : SenderTransportMetadata
deriving DecidableEq, Repr

/-- Top-level DIV envelope. -/
structure DivEnvelope where
  sender_document : SenderDocument
deriving DecidableEq, Repr

/-- DivEnvelope::new for an e-invoice. -/
def DivEnvelope.new (title date sender_e_address sender_ref_number recipient_e_address
    sender_org_name file_name mime_type : String) (file_size : Nat)
    (digest_value : String) : DivEnvelope :=
  { sender_document :=
    { document_metadata :=
      { general_metadata :=
        { authors :=
          { author_entry :=
            [{ institution := some { title := sender_org_name, registration_number := none }
               private_person := none }] }
          date := date
          document_kind :=
            { document_kind_code := "EINVOICE"
              document_kind_version := "1.0"
              document_kind_name := some "E-invoice" }
          description := none
          title := title }
        payload_reference := some
          { file :=
            [{ mime_type := mime_type
               size := file_size
               name := file_name
               content :=
                 { content_reference := "cid:invoice-content"
                   digest_value := digest_value }
               compressed := false }] } }
      sender_transport_metadata :=
        { sender_e_address := sender_e_address
          sender_ref_number := sender_ref_number
          recipients := { recipient_entry := [{ recipient_e_address := recipient_e_address }] }
          notify_sender_on_delivery := true
          priority := "normal" } } }

/-- Template text of to_xml before the document title. -/
def divXml1 : String := "<Envelope xmlns=\"http://ivis.eps.gov.lv/XMLSchemas/100001/DIV/v1-0\">\n  <SenderDocument Id=\"SenderSection\">\n    <DocumentMetadata>\n      <GeneralMetadata>\n        <Title>"

/-- Template text between title and date. -/
def divXml2 : String := "</Title>\n        <Date>"

/-- Template text between date and the institution title. -/
def divXml3 : String := "</Date>\n        <DocumentKind>\n          <DocumentKindCode>EINVOICE</DocumentKindCode>\n          <DocumentKindVersion>1.0</DocumentKindVersion>\n          <DocumentKindName>E-invoice</DocumentKindName>\n        </DocumentKind>\n        <Authors>\n          <AuthorEntry>\n            <Institution>\n              <Title>"

/-- Template text between the institution title and the MIME type. -/
def divXml4 : String := "</Title>\n            </Institution>\n          </AuthorEntry>\n        </Authors>\n      </GeneralMetadata>\n      <PayloadReference>\n        <File>\n          <MimeType>"

/-- Template text between the MIME type and the size. -/
def divXml5 : String := "</MimeType>\n          <Size>"

/-- Template text between the size and the file name. -/
def divXml6 : String := "</Size>\n          <Name>"

/-- Template text between the file name and the digest value. -/
def divXml7 : String := "</Name>\n          <Content>\n            <ContentReference>cid:invoice-content</ContentReference>\n            <DigestMethod Algorithm=\"http://www.w3.org/2001/04/xmlenc#sha256\"/>\n            <DigestValue>"

/-- Template text between the digest value and the sender e-address. -/
def divXml8 : String := "</DigestValue>\n          </Content>\n          <Compressed>false</Compressed>\n        </File>\n      </PayloadReference>\n    </DocumentMetadata>\n    <SenderTransportMetadata>\n      <SenderE-Address>"

/-- Template text between the sender e-address and the reference number. -/
def divXml9 : String := "</SenderE-Address>\n      <SenderRefNumber>"

/-- Template text between the reference number and the recipient e-address. -/
def divXml10 : String := "</SenderRefNumber>\n      <Recipients>\n        <RecipientEntry>\n          <RecipientE-Address>"

/-- Template text between the recipient e-address and the priority. -/
def divXml11 : String := "</RecipientE-Address>\n        </RecipientEntry>\n      </Recipients>\n      <NotifySenderOnDelivery>true</NotifySenderOnDelivery>\n      <Priority>"

/-- Template text after the priority. -/
def divXml12 : String := "</Priority>\n    </SenderTransportMetadata>\n  </SenderDocument>\n</Envelope>"

/-- DivEnvelope::to_xml: the format template with eleven interpolated fields.
The source indexes author_entry[0] and file[0] and unwraps the two options;
those partial accesses are modelled by Option, none standing for a panic. -/
def DivEnvelope.to_xml (e : DivEnvelope) : Option String := do
  let gm := e.sender_document.document_metadata.general_metadata
  let author ← gm.authors.author_entry.head?
  let inst ← author.institution
  let pr ← e.sender_document.document_metadata.payload_reference
  let fl ← pr.file.head?
  let stm := e.sender_document.sender_transport_metadata
  let recip ← stm.recipients.recipient_entry.head?
  pure (divXml1 ++ gm.title ++ divXml2 ++ gm.date ++ divXml3 ++ inst.title ++ divXml4 ++
        fl.mime_type ++ divXml5 ++ toString fl.size ++ divXml6 ++ fl.name ++ divXml7 ++
        fl.content.digest_value ++ divXml8 ++ stm.sender_e_address ++ divXml9 ++
        stm.sender_ref_number ++ divXml10 ++ recip.recipient_e_address ++ divXml11 ++
        stm.priority ++ divXml12)

/-! Helper predicates used by theorem statements. -/

/-- Truth of: the poll outcome is a successful status whose state is InFlight. -/
def pollInFlight : Except String DeliveryStatus → Bool
  | Except.ok st => st.state == DeliveryState.InFlight
  | Except.error _ => false

/-- Character-list prefix test. -/
def isPrefixChars : List Char → List Char → Bool
  | [], _ => true
  | _ :: _, [] => false
  | a :: as, b :: bs => a == b && isPrefixChars as bs

/-- Character-list substring test. -/
def containsSub (needle : List Char) : List Char → Bool
  | [] => isPrefixChars needle []
  | b :: bs => isPrefixChars needle (b :: bs) || containsSub needle bs

/-! Theorems. -/

/-- Sanity check of the SHA-256 embedding against the FIPS 180-4 test vector. -/
theorem sha256_abc_vector :
    compute_sha256_hex "abc" =
      "ba7816bf8f01cfea414140de5dae2223b00361a396177a9cb410ff61f20015ad" := by
  decide

/-- C6: the gateway backend status mapping is total over the seven native
values and maps New, Sent, DeliveryDelayed to InFlight; Accepted,
RecipientAccepted to Delivered; Rejected, RecipientRejected to Failed. -/
theorem C6_gateway_status_mapping :
    map_status MessageStatus.New = DeliveryState.InFlight ∧
    map_status MessageStatus.Sent = DeliveryState.InFlight ∧
    map_status MessageStatus.DeliveryDelayed = DeliveryState.InFlight ∧
    map_status MessageStatus.Accepted = DeliveryState.Delivered ∧
    map_status MessageStatus.RecipientAccepted = DeliveryState.Delivered ∧
    map_status MessageStatus.Rejected = DeliveryState.Failed ∧
    map_status MessageStatus.RecipientRejected = DeliveryState.Failed := by
  decide

/-- C4 counterexample: after a successful submit, a Pending poll result makes
process_job store the state value pending, which is not sent and lies outside
the five declared state values. -/
theorem C4_pending_counterexample :
    (jobStates "j" "x" 0 1 2 3 (Except.ok "t")
        (Except.ok ⟨"t", DeliveryState.Pending, none⟩)).getLast? = some "pending" ∧
    ("pending" ∉ (["queued", "in_flight", "sent", "delivered", "failed"] : List String)) := by
  decide

/-- C4 amended: the post-submit poll maps Delivered, Failed, InFlight to the
local states delivered, failed, in_flight, attaching the backend message as
last_error exactly when the result is Failed; a Pending result does not leave
the state as sent but stores the sixth value pending. -/
theorem C4_poll_mapping_amended :
    ∀ (now : Nat) (tid : String) (msg : Option String) (r : JobRecord),
      (step_poll_ok now ⟨tid, DeliveryState.Delivered, msg⟩ r).state = "delivered" ∧
      (step_poll_ok now ⟨tid, DeliveryState.Delivered, msg⟩ r).last_error = none ∧
      (step_poll_ok now ⟨tid, DeliveryState.Failed, msg⟩ r).state = "failed" ∧
      (step_poll_ok now ⟨tid, DeliveryState.Failed, msg⟩ r).last_error = msg ∧
      (step_poll_ok now ⟨tid, DeliveryState.InFlight, msg⟩ r).state = "in_flight" ∧
      (step_poll_ok now ⟨tid, DeliveryState.InFlight, msg⟩ r).last_error = none ∧
      (step_poll_ok now ⟨tid, DeliveryState.Pending, msg⟩ r).state = "pending" ∧
      (step_poll_ok now ⟨tid, DeliveryState.Pending, msg⟩ r).last_error = none :=
  fun _ _ _ _ => ⟨rfl, rfl, rfl, rfl, rfl, rfl, rfl, rfl⟩

/-- C9: updating a job id absent from the jobs tree yields the not-found error
and returns the tree unchanged. -/
theorem C9_update_missing_id :
    ∀ (jobs : List (String × JobRecord)) (job_id : String) (f : JobRecord → JobRecord),
      treeGet jobs job_id = none →
      update_state jobs job_id f = (Except.error ("job not found: " ++ job_id), jobs) := by
  intro jobs job_id f h
  simp [update_state, h]

/-- C9 witness at a concrete empty store. -/
theorem C9_update_missing_id_witness :
    update_state [] "nope" id = (Except.error ("job not found: " ++ "nope"), []) :=
  C9_update_missing_id [] "nope" id rfl

/-- C5: the enqueued record stores as invoice_hash exactly the hex-encoded
SHA-256 digest of the UTF-8 bytes of the submitted XML, and every record of
the full job history keeps that same hash unchanged. -/
theorem C5_invoice_hash_immutable :
    ∀ (job_id xml : String) (t0 t1 t2 t3 : Nat) (sres : Except String String)
      (pres : Except String DeliveryStatus),
      (enqueueRecord job_id xml t0).invoice_hash = hexEncode (sha256Bytes (strBytes xml)) ∧
      ∀ r ∈ jobHistory job_id xml t0 t1 t2 t3 sres pres,
        r.invoice_hash = compute_sha256_hex xml := by
  intro job_id xml t0 t1 t2 t3 sres pres
  refine ⟨rfl, ?_⟩
  intro r hr
  cases sres with
  | error e =>
    simp only [jobHistory, processRecords, List.mem_cons, List.not_mem_nil, or_false] at hr
    rcases hr with h | h | h <;> subst h <;> rfl
  | ok tid =>
    cases pres with
    | error e =>
      simp only [jobHistory, processRecords, List.mem_cons, List.not_mem_nil, or_false] at hr
      rcases hr with h | h | h | h <;> subst h <;> rfl
    | ok st =>
      simp only [jobHistory, processRecords, List.mem_cons, List.not_mem_nil, or_false] at hr
      rcases hr with h | h | h | h <;> subst h <;> rfl

/-- C5 witness at a concrete enqueued record. -/
theorem C5_invoice_hash_immutable_witness :
    (enqueueRecord "j" "a" 0).invoice_hash = compute_sha256_hex "a" :=
  (C5_invoice_hash_immutable "j" "a" 0 1 2 3 (Except.error "e") (Except.error "e")).2
    (enqueueRecord "j" "a" 0) (List.mem_cons_self _ _)

/-- C1 counterexample: when the post-submit poll reports InFlight, the state
sequence is queued, in_flight, sent, in_flight, so the last transition moves
the job to a strict predecessor of sent in the declared graph. -/
theorem C1_backward_transition_counterexample :
    (let l := jobStates "j" "x" 0 1 2 3 (Except.ok "t")
        (Except.ok ⟨"t", DeliveryState.InFlight, none⟩)
     (l.zip l.tail).all (fun p => !(isPredecessor p.2 p.1))) = false ∧
    jobStates "j" "x" 0 1 2 3 (Except.ok "t")
        (Except.ok ⟨"t", DeliveryState.InFlight, none⟩)
      = ["queued", "in_flight", "sent", "in_flight"] := by
  constructor
  · decide
  · rfl

/-- C1 amended: every adjacent transition of a job history avoids moving to a
strict predecessor in the graph, except the single backward move from sent to
in_flight that a successful poll reporting InFlight produces. -/
theorem C1_forward_only_amended :
    ∀ (job_id xml : String) (t0 t1 t2 t3 : Nat) (sres : Except String String)
      (pres : Except String DeliveryStatus),
      (let l := jobStates job_id xml t0 t1 t2 t3 sres pres
       (l.zip l.tail).all
         (fun p => !(isPredecessor p.2 p.1) ||
           (p.1 == "sent" && p.2 == "in_flight" && pollInFlight pres))) = true := by
  intro job_id xml t0 t1 t2 t3 sres pres
  cases sres with
  | error e => rfl
  | ok tid =>
    cases pres with
    | error e => rfl
    | ok st =>
      cases st with
      | mk a b c => cases b <;> rfl

/-- C2 counterexample: a history in which the poll reports InFlight ends with
a record whose state is in_flight and whose transmission_id is still Some, so
transmission_id is not None while the state is in_flight, contradicting the
stated iff. -/
theorem C2_transmission_id_counterexample :
    ((jobHistory "j" "x" 0 1 2 3 (Except.ok "t")
        (Except.ok ⟨"t", DeliveryState.InFlight, none⟩)).getLast?).map
      (fun r => (r.state, r.transmission_id)) = some ("in_flight", some "t") := by
  decide

/-- C2 amended: transmission_id is None through the queued record and the
pre-submit in_flight record, stays None for the whole history when submit
fails, and is Some of the backend id in every record written from the sent
update onward, including the in_flight or pending records a poll can write;
in particular it is None whenever the state is queued. -/
theorem C2_transmission_id_amended :
    ∀ (job_id xml : String) (t0 t1 t2 t3 : Nat) (sres : Except String String)
      (pres : Except String DeliveryStatus),
      let hist := jobHistory job_id xml t0 t1 t2 t3 sres pres
      ((hist.take 2).all (fun r => r.transmission_id == none) = true) ∧
      (∀ e, sres = Except.error e → (hist.all (fun r => r.transmission_id == none) = true)) ∧
      (∀ tid, sres = Except.ok tid →
        ((hist.drop 2).all (fun r => r.transmission_id == some tid) = true)) ∧
      (∀ r ∈ hist, r.state = "queued" → r.transmission_id = none) := by
  intro job_id xml t0 t1 t2 t3 sres pres
  cases sres with
  | error e =>
    refine ⟨rfl, ?_, ?_, ?_⟩
    · intro e2 h2
      rfl
    · intro tid h2
      exact absurd h2 (by simp)
    · intro r hr hq
      simp only [jobHistory, processRecords, List.mem_cons, List.not_mem_nil, or_false] at hr
      rcases hr with h | h | h <;> subst h
      · rfl
      · exact absurd hq (by simp [step_mark_in_flight])
      · exact absurd hq (by simp [step_submit_err])
  | ok tid =>
    cases pres with
    | error e =>
      refine ⟨rfl, ?_, ?_, ?_⟩
      · intro e2 h2
        exact absurd h2 (by simp)
      · intro tid2 h2
        cases h2
        simp [jobHistory, processRecords, step_mark_in_flight, step_mark_sent, step_poll_err]
      · intro r hr hq
        simp only [jobHistory, processRecords, List.mem_cons, List.not_mem_nil, or_false] at hr
        rcases hr with h | h | h | h <;> subst h
        · rfl
        · exact absurd hq (by simp [step_mark_in_flight])
        · exact absurd hq (by simp [step_mark_sent, step_mark_in_flight])
        · exact absurd hq (by simp [step_poll_err, step_mark_sent, step_mark_in_flight])
    | ok st =>
      refine ⟨rfl, ?_, ?_, ?_⟩
      · intro e2 h2
        exact absurd h2 (by simp)
      · intro tid2 h2
        cases h2
        cases st with
        | mk a b c =>
          cases b <;>
            simp [jobHistory, processRecords, step_mark_in_flight, step_mark_sent,
              step_poll_ok, pollStateName]
      · intro r hr hq
        simp only [jobHistory, processRecords, List.mem_cons, List.not_mem_nil, or_false] at hr
        rcases hr with h | h | h | h <;> subst h
        · rfl
        · exact absurd hq (by simp [step_mark_in_flight])
        · exact absurd hq (by simp [step_mark_sent, step_mark_in_flight])
        · refine absurd hq ?_
          cases st with
          | mk a b c =>
            cases b <;>
              simp [step_poll_ok, pollStateName, step_mark_sent, step_mark_in_flight]

/-- C2 witness: a delivered run keeps the backend id in every post-submit record. -/
theorem C2_transmission_id_amended_witness :
    ((jobHistory "j" "x" 0 1 2 3 (Except.ok "t")
        (Except.ok ⟨"t", DeliveryState.Delivered, none⟩)).drop 2).all
      (fun r => r.transmission_id == some "t") = true :=
  (C2_transmission_id_amended "j" "x" 0 1 2 3 (Except.ok "t")
      (Except.ok ⟨"t", DeliveryState.Delivered, none⟩)).2.2.1 "t" rfl

/-- Looking up the key that was just inserted returns the inserted value. -/
theorem treeGet_insert_self {α : Type} (t : List (String × α)) (k : String) (v : α) :
    treeGet (treeInsert t k v) k = some v := by
  induction t with
  | nil => simp [treeInsert, treeGet]
  | cons p rest ih =>
    obtain ⟨k2, v2⟩ := p
    by_cases h : k2 == k
    · simp [treeInsert, h, treeGet, List.find?]
    · simp only [treeInsert, h, Bool.false_eq_true, if_false]
      simpa [treeGet, List.find?, h] using ih

/-- C3 counterexample: when the jobs insert succeeds and the payloads insert
fails, enqueue returns an error to the caller yet the store now holds a job
record with no payload under the same key. -/
theorem C3_atomicity_counterexample :
    (enqueue_run true false "j1" ⟨"x", "s", "r", "p"⟩ 0 ⟨[], []⟩).1
        = Except.error "store io error" ∧
    (treeGet (enqueue_run true false "j1" ⟨"x", "s", "r", "p"⟩ 0 ⟨[], []⟩).2.jobs "j1").isSome
        = true ∧
    treeGet (enqueue_run true false "j1" ⟨"x", "s", "r", "p"⟩ 0 ⟨[], []⟩).2.payloads "j1"
        = none :=
  ⟨rfl, rfl, rfl⟩

/-- C3 amended: enqueue either returns the job id with both the record and the
payload persisted, or returns an error; the two inserts are not atomic: when
the record insert succeeds and the payload insert fails, the caller receives
an error while the store keeps a job record whose payload was never written. -/
theorem C3_enqueue_persistence_amended :
    ∀ (jobsOk payloadsOk : Bool) (job_id : String) (p : JobPayload) (now : Nat) (s : Store),
      let out := enqueue_run jobsOk payloadsOk job_id p now s
      (jobsOk = true → payloadsOk = true →
        out.1 = Except.ok job_id ∧
        treeGet out.2.jobs job_id = some (enqueueRecord job_id p.xml now) ∧
        treeGet out.2.payloads job_id = some p) ∧
      (jobsOk = true → payloadsOk = false →
        out.1 = Except.error "store io error" ∧
        treeGet out.2.jobs job_id = some (enqueueRecord job_id p.xml now) ∧
        out.2.payloads = s.payloads) ∧
      (jobsOk = false → out.1 = Except.error "store io error" ∧ out.2 = s) := by
  intro jobsOk payloadsOk job_id p now s
  cases jobsOk <;> cases payloadsOk <;>
    simp [enqueue_run, treeGet_insert_self]

/-- C3 witness at a concrete store for the failing payload insert. -/
theorem C3_enqueue_persistence_amended_witness :
    (enqueue_run true false "j1" ⟨"x", "s", "r", "p"⟩ 0 ⟨[], []⟩).1
        = Except.error "store io error" ∧
    treeGet (enqueue_run true false "j1" ⟨"x", "s", "r", "p"⟩ 0 ⟨[], []⟩).2.jobs "j1"
        = some (enqueueRecord "j1" "x" 0) ∧
    (enqueue_run true false "j1" ⟨"x", "s", "r", "p"⟩ 0 ⟨[], []⟩).2.payloads
        = (⟨[], []⟩ : Store).payloads :=
  (C3_enqueue_persistence_amended true false "j1" ⟨"x", "s", "r", "p"⟩ 0 ⟨[], []⟩).2.1 rfl rfl

/-- C7: the REST backend state mapping lowercases the backend string and maps
delivered and accepted to Delivered, failed and rejected to Failed, in_transit
and sending to InFlight, and every other string to Pending. -/
theorem C7_rest_state_mapping :
    ∀ s : String,
      (unifiedpost_map_state s = DeliveryState.Delivered ↔
        (rustToLowercase s = "delivered" ∨ rustToLowercase s = "accepted")) ∧
      (unifiedpost_map_state s = DeliveryState.Failed ↔
        (rustToLowercase s = "failed" ∨ rustToLowercase s = "rejected")) ∧
      (unifiedpost_map_state s = DeliveryState.InFlight ↔
        (rustToLowercase s = "in_transit" ∨ rustToLowercase s = "sending")) ∧
      (unifiedpost_map_state s = DeliveryState.Pending ↔
        ¬(rustToLowercase s = "delivered" ∨ rustToLowercase s = "accepted" ∨
          rustToLowercase s = "failed" ∨ rustToLowercase s = "rejected" ∨
          rustToLowercase s = "in_transit" ∨ rustToLowercase s = "sending")) := by
  intro s
  unfold unifiedpost_map_state
  dsimp only
  generalize rustToLowercase s = l
  split_ifs with h1 h2 h3
  · rcases h1 with h | h <;> subst h <;> decide
  · rcases h2 with h | h <;> subst h <;> decide
  · rcases h3 with h | h <;> subst h <;> decide
  · push_neg at h1 h2 h3
    obtain ⟨n1, n2⟩ := h1
    obtain ⟨n3, n4⟩ := h2
    obtain ⟨n5, n6⟩ := h3
    refine ⟨?_, ?_, ?_, ?_⟩ <;> simp [n1, n2, n3, n4, n5, n6]

/-- C7 witness at the concrete strings named by the spec. -/
theorem C7_rest_state_mapping_witness :
    unifiedpost_map_state "ACCEPTED" = DeliveryState.Delivered ∧
    unifiedpost_map_state "Rejected" = DeliveryState.Failed ∧
    unifiedpost_map_state "in_transit" = DeliveryState.InFlight ∧
    unifiedpost_map_state "unknown" = DeliveryState.Pending :=
  ⟨(C7_rest_state_mapping "ACCEPTED").1.mpr (by decide),
   (C7_rest_state_mapping "Rejected").2.1.mpr (by decide),
   (C7_rest_state_mapping "in_transit").2.2.1.mpr (by decide),
   (C7_rest_state_mapping "unknown").2.2.2.mpr (by decide)⟩

/-- Membership after an insert comes from the inserted pair or the old tree. -/
theorem mem_treeInsert {α : Type} (k : String) (v : α) (p : String × α) :
    ∀ t : List (String × α), p ∈ treeInsert t k v → p = (k, v) ∨ p ∈ t := by
  intro t
  induction t with
  | nil =>
    intro hp
    simpa [treeInsert] using hp
  | cons q rest ih =>
    intro hp
    obtain ⟨k2, v2⟩ := q
    by_cases h : (k2 == k) = true
    · simp only [treeInsert, h, if_true] at hp
      rcases List.mem_cons.mp hp with h1 | h1
      · exact Or.inl h1
      · exact Or.inr (List.mem_cons_of_mem _ h1)
    · simp only [treeInsert, h, if_false] at hp
      rcases List.mem_cons.mp hp with h1 | h1
      · exact Or.inr (by simp [h1])
      · rcases ih h1 with h2 | h2
        · exact Or.inl h2
        · exact Or.inr (List.mem_cons_of_mem _ h2)

/-- The inserted value appears among the values of the tree after an insert. -/
theorem snd_mem_treeInsert {α : Type} (k : String) (v : α) :
    ∀ t : List (String × α), v ∈ (treeInsert t k v).map Prod.snd := by
  intro t
  induction t with
  | nil => simp [treeInsert]
  | cons q rest ih =>
    obtain ⟨k2, v2⟩ := q
    by_cases h : (k2 == k) = true
    · simp [treeInsert, h]
    · simp only [treeInsert, h, Bool.false_eq_true, if_false, List.map_cons, List.mem_cons]
      exact Or.inr ih

/-- The record list returned by list is a permutation of the stored records. -/
theorem list_perm (jobs : List (String × JobRecord)) :
    (list jobs).Perm (jobs.map Prod.snd) := by
  unfold list
  exact (List.reverse_perm _).trans (List.mergeSort_perm _ _)

/-- The record list returned by list is sorted by created_at descending. -/
theorem list_sorted (jobs : List (String × JobRecord)) :
    List.Sorted (fun a b => b.created_at ≤ a.created_at) (list jobs) := by
  unfold list
  show List.Pairwise _ _
  rw [List.pairwise_reverse]
  have h := @List.sorted_mergeSort JobRecord
      (fun a b : JobRecord => decide (a.created_at ≤ b.created_at))
      (by
        intro a b c hab hbc
        simp only [decide_eq_true_eq] at *
        omega)
      (by
        intro a b
        rcases Nat.le_total a.created_at b.created_at with h | h <;> simp [h])
      (jobs.map Prod.snd)
  refine h.imp ?_
  intro a b hab
  simpa using hab

/-- C8: list returns exactly the stored records (a permutation of the values
of the jobs tree), sorted by created_at descending, and after inserting a
record whose created_at strictly exceeds that of every stored record, that
record is the head of the next list result.  In the embedding, list is a pure
function of the store, so it mutates nothing. -/
theorem C8_list_ordering :
    ∀ jobs : List (String × JobRecord),
      ((list jobs).Perm (jobs.map Prod.snd)) ∧
      List.Sorted (fun a b => b.created_at ≤ a.created_at) (list jobs) ∧
      ∀ (key : String) (r : JobRecord),
        (∀ p ∈ jobs, p.2.created_at < r.created_at) →
        (list (treeInsert jobs key r)).head? = some r := by
  intro jobs
  refine ⟨list_perm jobs, list_sorted jobs, ?_⟩
  intro key r hmax
  have hperm := list_perm (treeInsert jobs key r)
  have hsorted := list_sorted (treeInsert jobs key r)
  have hr_mem : r ∈ list (treeInsert jobs key r) :=
    hperm.mem_iff.mpr (snd_mem_treeInsert key r jobs)
  cases hl : list (treeInsert jobs key r) with
  | nil =>
    rw [hl] at hr_mem
    cases hr_mem
  | cons a tl =>
    rw [hl] at hr_mem hsorted hperm
    have ha_mem : a ∈ (treeInsert jobs key r).map Prod.snd :=
      hperm.subset (List.mem_cons_self a tl)
    rcases List.mem_map.mp ha_mem with ⟨q, hq, hqe⟩
    rcases mem_treeInsert key r q jobs hq with heq | hold
    · subst heq
      simp only [List.head?_cons]
      rw [← hqe]
    · have hlt : a.created_at < r.created_at := by
        have h2 := hmax q hold
        rwa [hqe] at h2
      have hle : ∀ x ∈ tl, x.created_at ≤ a.created_at :=
        fun x hx => (List.pairwise_cons.mp hsorted).1 x hx
      rcases List.mem_cons.mp hr_mem with he | hmem
      · rw [he] at hlt
        exact absurd hlt (lt_irrefl _)
      · exact absurd (Nat.lt_of_lt_of_le hlt (hle r hmem)) (lt_irrefl _)

/-- C8 witness: a two-job store where the newly inserted record is newest. -/
theorem C8_list_ordering_witness :
    (list (treeInsert [("a", ⟨"a", "queued", none, 1, 1, none, ""⟩)] "b"
        ⟨"b", "queued", none, 5, 5, none, ""⟩)).head?
      = some ⟨"b", "queued", none, 5, 5, none, ""⟩ :=
  (C8_list_ordering [("a", ⟨"a", "queued", none, 1, 1, none, ""⟩)]).2.2 "b"
    ⟨"b", "queued", none, 5, 5, none, ""⟩ (by decide)

set_option maxRecDepth 100000 in
/-- C10: to_xml splices the document title, date, institution title, MIME
type, size, file name, digest value, sender e-address, reference number,
recipient e-address and priority verbatim into the template, with no XML
escaping; concretely, an envelope whose title carries raw markup serializes
with that markup intact and with no entity escape of the angle bracket. -/
theorem C10_to_xml_verbatim :
    (∀ (title date sea srn rea son fn mt : String) (fs : Nat) (dv : String),
      DivEnvelope.to_xml (DivEnvelope.new title date sea srn rea son fn mt fs dv) =
        some (divXml1 ++ title ++ divXml2 ++ date ++ divXml3 ++ son ++ divXml4 ++ mt ++
              divXml5 ++ toString fs ++ divXml6 ++ fn ++ divXml7 ++ dv ++ divXml8 ++ sea ++
              divXml9 ++ srn ++ divXml10 ++ rea ++ divXml11 ++ "normal" ++ divXml12)) ∧
    ((DivEnvelope.to_xml (DivEnvelope.new "a <raw> b" "" "" "" "" "" "" "" 0 "")).any
      (fun out => containsSub "<raw>".data out.data &&
                  !(containsSub "&lt;".data out.data)) = true) := by
  constructor
  · intro title date sea srn rea son fn mt fs dv
    rfl
  · decide

end EInv
